import Mathlib

/-!
Shallow embedding of the search/upsert/import core of the
oursportsnation/korean-postalcode repository (Go).

Modeling conventions:
* Go strings are byte sequences, modeled as `List Char` with one `Char`
  per byte (Go's `len` is the byte length, `s[:3]` takes the first 3 bytes).
* `strings.TrimSpace` is modeled over the ASCII whitespace characters.
* The GORM-backed repository (`internal/repository`) is modeled as an
  in-memory table: a list of rows in insertion order plus the next
  auto-increment id. Store operations in this model do not fail
  (connection-level errors are not modeled), so the only failure mode of
  `BatchUpsert` is the "no valid records in batch" error of the service.
* Files are modeled as `Option GoFile`: `none` is a file that cannot be
  opened; `some f` holds the physical lines of the file, each line already
  split at the pipe delimiter into its column strings (so CSV-reader level
  quoting errors are not modeled).
* Wall-clock durations (`ImportResult.Duration`), progress callbacks and
  console output are not modeled.
-/

namespace KoreanPostal

/-- Go string as a byte sequence (one `Char` per byte). -/
abbrev GoStr := List Char

/-- Lean string literal as a `GoStr` (used with ASCII content only). -/
def gs (s : String) : GoStr := s.toList

/-- Go errors are carried as their message strings. -/
abbrev GoErr := String

/-- Whitespace bytes recognized by the model of `strings.TrimSpace`. -/
def isGoSpace (c : Char) : Bool :=
  c == ' ' || c == '\t' || c == '\n' || c == Char.ofNat 11 || c == Char.ofNat 12 || c == '\r'

/-- Model of Go `strings.TrimSpace`: drop whitespace from both ends. -/
def trimSpace (s : GoStr) : GoStr :=
  ((s.dropWhile isGoSpace).reverse.dropWhile isGoSpace).reverse

/-- Value of a nonempty all-digit string, `none` otherwise. -/
def digitsVal (s : GoStr) : Option Nat :=
  if s ≠ [] ∧ s.all Char.isDigit then
    some (s.foldl (fun acc c => acc * 10 + (c.toNat - 48)) 0)
  else none

/-- Model of Go `strconv.Atoi`: an optional sign followed by decimal digits;
anything else is a parse error (`none`). -/
def atoi : GoStr → Option Int
  | '+' :: rest => (digitsVal rest).map (fun n => (n : Int))
  | '-' :: rest => (digitsVal rest).map (fun n => -(n : Int))
  | s => (digitsVal s).map (fun n => (n : Int))

/-- Model of Go `int8(v)`: two's-complement wraparound to [-128, 127]. -/
def int8Wrap (v : Int) : Int := (v + 128) % 256 - 128

/-- Road-address record (root-package `PostalCodeRoad`), field types as used by
the importer, service and repository; Go zero values as defaults. -/
structure PostalCodeRoad where
  id : Nat := 0
  zipCode : GoStr := []
  zipPrefix : GoStr := []
  sidoName : GoStr := []
  sidoNameEn : GoStr := []
  sigunguName : GoStr := []
  sigunguNameEn : GoStr := []
  eupmyeonName : GoStr := []
  eupmyeonNameEn : GoStr := []
  roadName : GoStr := []
  roadNameEn : GoStr := []
  isUnderground : Bool := false
  startBuildingMain : Int := 0
  startBuildingSub : Option Int := none
  endBuildingMain : Option Int := none
  endBuildingSub : Option Int := none
  rangeType : Int := 0
  deriving DecidableEq, Repr

/-- Land-address record (root-package `PostalCodeLand`). -/
structure PostalCodeLand where
  id : Nat := 0
  zipCode : GoStr := []
  zipPrefix : GoStr := []
  sidoName : GoStr := []
  sidoNameEn : GoStr := []
  sigunguName : GoStr := []
  sigunguNameEn : GoStr := []
  eupmyeondongName : GoStr := []
  eupmyeondongNameEn : GoStr := []
  riName : GoStr := []
  haengjeongdongName : GoStr := []
  isMountain : Bool := false
  startJibunMain : Int := 0
  startJibunSub : Option Int := none
  endJibunMain : Option Int := none
  endJibunSub : Option Int := none
  deriving DecidableEq, Repr

/-- One data row after the pipe-delimited CSV reader: the column strings. -/
abbrev Row := List GoStr

/-- Main-number column (`건물번호본번(시작)` / `지번본번(시작)`): a plain integer,
zero included; the field keeps Go's zero value when the column is blank or
not an integer. -/
def parseMainInt (s : GoStr) : Int :=
  let t := trimSpace s
  if t ≠ [] then (atoi t).getD 0 else 0

/-- Optional main-number column (end of range): set when nonblank and integer. -/
def parseOptMain (s : GoStr) : Option Int :=
  let t := trimSpace s
  if t ≠ [] then atoi t else none

/-- Sub-number column: left unset when blank or the literal "0" (the
government data's sentinel for "not applicable"), set for other integers. -/
def parseSubField (s : GoStr) : Option Int :=
  let t := trimSpace s
  if t ≠ [] ∧ t ≠ ['0'] then atoi t else none

/-- Range-type column, converted through Go's `int8(...)`. -/
def parseRangeType (s : GoStr) : Int :=
  let t := trimSpace s
  if t ≠ [] then
    match atoi t with
    | some v => int8Wrap v
    | none => 0
  else 0

/-- One road data row (`ParseFile` loop body): `none` is the structural error
for a row with fewer than 15 columns. -/
def parseRoadLine (record : Row) : Option PostalCodeRoad :=
  if record.length < 15 then none
  else
    let zipCode := trimSpace (record.getD 0 [])
    let zp := if zipCode.length ≥ 3 then zipCode.take 3 else []
    some { zipCode := zipCode
           zipPrefix := zp
           sidoName := trimSpace (record.getD 1 [])
           sidoNameEn := trimSpace (record.getD 2 [])
           sigunguName := trimSpace (record.getD 3 [])
           sigunguNameEn := trimSpace (record.getD 4 [])
           eupmyeonName := trimSpace (record.getD 5 [])
           eupmyeonNameEn := trimSpace (record.getD 6 [])
           roadName := trimSpace (record.getD 7 [])
           roadNameEn := trimSpace (record.getD 8 [])
           isUnderground := decide (trimSpace (record.getD 9 []) = ['1'])
           startBuildingMain := parseMainInt (record.getD 10 [])
           startBuildingSub := parseSubField (record.getD 11 [])
           endBuildingMain := parseOptMain (record.getD 12 [])
           endBuildingSub := parseSubField (record.getD 13 [])
           rangeType := parseRangeType (record.getD 14 []) }

/-- One land data row (`ParseLandFile` loop body): `none` is the structural
error for a row with fewer than 14 columns. -/
def parseLandLine (record : Row) : Option PostalCodeLand :=
  if record.length < 14 then none
  else
    let zipCode := trimSpace (record.getD 0 [])
    let zp := if zipCode.length ≥ 3 then zipCode.take 3 else []
    some { zipCode := zipCode
           zipPrefix := zp
           sidoName := trimSpace (record.getD 1 [])
           sidoNameEn := trimSpace (record.getD 2 [])
           sigunguName := trimSpace (record.getD 3 [])
           sigunguNameEn := trimSpace (record.getD 4 [])
           eupmyeondongName := trimSpace (record.getD 5 [])
           eupmyeondongNameEn := trimSpace (record.getD 6 [])
           riName := trimSpace (record.getD 7 [])
           haengjeongdongName := trimSpace (record.getD 9 [])
           isMountain := decide (trimSpace (record.getD 8 []) = ['1'])
           startJibunMain := parseMainInt (record.getD 10 [])
           startJibunSub := parseSubField (record.getD 11 [])
           endJibunMain := parseOptMain (record.getD 12 [])
           endJibunSub := parseSubField (record.getD 13 []) }

/-- Parsing loop of `ParseFile` over the data rows: the records in row order
and the number of per-line structural errors (a bad row is skipped, the
loop continues with the next line). -/
def parseRoadRows : List Row → List PostalCodeRoad × Nat
  | [] => ([], 0)
  | r :: rest =>
    let out := parseRoadRows rest
    match parseRoadLine r with
    | some rec => (rec :: out.1, out.2)
    | none => (out.1, out.2 + 1)

/-- Parsing loop of `ParseLandFile` over the data rows. -/
def parseLandRows : List Row → List PostalCodeLand × Nat
  | [] => ([], 0)
  | r :: rest =>
    let out := parseLandRows rest
    match parseLandLine r with
    | some rec => (rec :: out.1, out.2)
    | none => (out.1, out.2 + 1)

/-- A file that was opened: its physical lines, each pipe-split into columns. -/
structure GoFile where
  lines : List Row
  deriving DecidableEq, Repr

/-- Model of `countDataLines`: skip the first line (header), count the rest. -/
def countDataLines (f : GoFile) : Nat := f.lines.tail.length

/-- Model of `ParseFile`: fails when the header line cannot be read (the file
has no lines), else parses the data rows. -/
def parseRoadFile (f : GoFile) : Except GoErr (List PostalCodeRoad) :=
  match f.lines with
  | [] => Except.error "failed to read header"
  | _ :: dataRows => Except.ok (parseRoadRows dataRows).1

/-- Model of `ParseLandFile`. -/
def parseLandFile (f : GoFile) : Except GoErr (List PostalCodeLand) :=
  match f.lines with
  | [] => Except.error "failed to read header"
  | _ :: dataRows => Except.ok (parseLandRows dataRows).1

/-- In-memory model of the road table: rows in insertion order and the next
auto-increment surrogate id (1 on a fresh table). -/
structure RoadStore where
  rows : List PostalCodeRoad := []
  nextId : Nat := 1
  deriving DecidableEq, Repr

/-- In-memory model of the land table. -/
structure LandStore where
  rows : List PostalCodeLand := []
  nextId : Nat := 1
  deriving DecidableEq, Repr

/-- Model of `Repository.FindByZipCode`: exact match on the zip code. -/
def findByZipCode (st : RoadStore) (z : GoStr) : List PostalCodeRoad :=
  st.rows.filter (fun x => decide (x.zipCode = z))

/-- Model of `Repository.Create`: insert, assigning the next surrogate id. -/
def storeCreate (st : RoadStore) (r : PostalCodeRoad) : RoadStore × PostalCodeRoad :=
  let r2 := { r with id := st.nextId }
  ({ rows := st.rows ++ [r2], nextId := st.nextId + 1 }, r2)

/-- Model of `Repository.Update` (GORM `Save` by primary key): full-row
replace of the row carrying the same id. -/
def storeUpdate (st : RoadStore) (r : PostalCodeRoad) : RoadStore :=
  { st with rows := st.rows.map (fun x => if x.id = r.id then r else x) }

/-- Natural-key comparison used by the linear scan in `Service.Upsert`
(the zip code is already equal by the `FindByZipCode` filter). -/
def natKeyMatch (x r : PostalCodeRoad) : Bool :=
  decide (x.sidoName = r.sidoName ∧ x.sigunguName = r.sigunguName ∧
    x.roadName = r.roadName ∧ x.startBuildingMain = r.startBuildingMain)

/-- Conflict target of `Repository.BatchCreate`'s ON CONFLICT clause:
(zip_code, sido_name, sigungu_name, road_name, start_building_main). -/
def conflictKeyMatch (x r : PostalCodeRoad) : Bool :=
  decide (x.zipCode = r.zipCode ∧ x.sidoName = r.sidoName ∧
    x.sigunguName = r.sigunguName ∧ x.roadName = r.roadName ∧
    x.startBuildingMain = r.startBuildingMain)

/-- One row of `Repository.BatchCreate`: on a natural-key conflict update all
non-key columns of the existing row (the id is kept), else insert. -/
def batchCreateOne (st : RoadStore) (r : PostalCodeRoad) : RoadStore :=
  if st.rows.any (fun x => conflictKeyMatch x r) then
    { st with rows := st.rows.map (fun x =>
        if conflictKeyMatch x r then { r with id := x.id } else x) }
  else (storeCreate st r).1

/-- Model of `Repository.BatchCreate`: the rows in order, each with
upsert-on-conflict semantics (later rows win for a repeated key). -/
def batchCreate (st : RoadStore) (rs : List PostalCodeRoad) : RoadStore :=
  rs.foldl batchCreateOne st

/-- Model of `Repository.TruncateRoad`: all rows removed and the surrogate-id
sequence reset, so the next insert gets id 1. -/
def truncateRoad (_st : RoadStore) : RoadStore := { rows := [], nextId := 1 }

/-- Land-side `FindLandByZipCode`. -/
def findLandByZipCode (st : LandStore) (z : GoStr) : List PostalCodeLand :=
  st.rows.filter (fun x => decide (x.zipCode = z))

/-- Land-side `CreateLand`. -/
def storeCreateLand (st : LandStore) (r : PostalCodeLand) : LandStore × PostalCodeLand :=
  let r2 := { r with id := st.nextId }
  ({ rows := st.rows ++ [r2], nextId := st.nextId + 1 }, r2)

/-- Conflict target of `BatchCreateLand`: (zip_code, sido_name, sigungu_name,
eupmyeondong_name, ri_name, is_mountain, start_jibun_main). -/
def conflictKeyMatchLand (x r : PostalCodeLand) : Bool :=
  decide (x.zipCode = r.zipCode ∧ x.sidoName = r.sidoName ∧
    x.sigunguName = r.sigunguName ∧ x.eupmyeondongName = r.eupmyeondongName ∧
    x.riName = r.riName ∧ x.isMountain = r.isMountain ∧
    x.startJibunMain = r.startJibunMain)

/-- One row of `BatchCreateLand`. -/
def batchCreateOneLand (st : LandStore) (r : PostalCodeLand) : LandStore :=
  if st.rows.any (fun x => conflictKeyMatchLand x r) then
    { st with rows := st.rows.map (fun x =>
        if conflictKeyMatchLand x r then { r with id := x.id } else x) }
  else (storeCreateLand st r).1

/-- Model of `Repository.BatchCreateLand`. -/
def batchCreateLand (st : LandStore) (rs : List PostalCodeLand) : LandStore :=
  rs.foldl batchCreateOneLand st

/-- Model of `Repository.TruncateLand`. -/
def truncateLand (_st : LandStore) : LandStore := { rows := [], nextId := 1 }

/-- Model of `Service.validate`: the first failing required-field rule, or
`none` when the record is valid. Only the byte length of the zip code is
checked, never its digit content; the sigungu name is optional. -/
def validate (r : PostalCodeRoad) : Option GoErr :=
  if r.zipCode = [] then some "zip code is required"
  else if r.zipCode.length ≠ 5 then some "zip code must be 5 digits"
  else if r.sidoName = [] then some "sido name is required"
  else if r.roadName = [] then some "road name is required"
  else none

/-- Model of `Service.validateLand`. -/
def validateLand (r : PostalCodeLand) : Option GoErr :=
  if r.zipCode = [] then some "zip code is required"
  else if r.zipCode.length ≠ 5 then some "zip code must be 5 digits"
  else if r.sidoName = [] then some "sido name is required"
  else if r.eupmyeondongName = [] then some "eupmyeondong name is required"
  else none

/-- Model of `Service.ExtractZipPrefix`: trim, then the first 3 bytes when
the trimmed length is at least 3, else empty. -/
def extractZipPrefix (zipCode : GoStr) : GoStr :=
  let t := trimSpace zipCode
  if t.length ≥ 3 then t.take 3 else []

/-- ZipPrefix auto-derivation step of the upsert paths: fill the prefix from the
zip code only when the caller left it empty. -/
def derivePrefix (r : PostalCodeRoad) : PostalCodeRoad :=
  if r.zipPrefix = [] then { r with zipPrefix := extractZipPrefix r.zipCode } else r

/-- Land-side prefix auto-derivation. -/
def derivePrefixLand (r : PostalCodeLand) : PostalCodeLand :=
  if r.zipPrefix = [] then { r with zipPrefix := extractZipPrefix r.zipCode } else r

/-- Model of `Service.GetByZipCode`: reject an empty or non-5-byte code,
else delegate to the store's exact lookup. -/
def getByZipCode (st : RoadStore) (zipCode : GoStr) : Except GoErr (List PostalCodeRoad) :=
  if zipCode = [] then Except.error "zip code is required"
  else if zipCode.length ≠ 5 then Except.error "zip code must be 5 digits"
  else Except.ok (findByZipCode st zipCode)

/-- Model of `Service.GetByZipPrefix`, parameterized over the injected store
query (`s.repo.FindByZipPrefix`): reject an empty or non-3-byte prefix
before consulting the store, else clamp limit and offset and delegate. -/
def getByZipPrefix (find : GoStr → Int → Int → List PostalCodeRoad × Int)
    (zipPrefix : GoStr) (limit offset : Int) : Except GoErr (List PostalCodeRoad × Int) :=
  if zipPrefix = [] then Except.error "zip prefix is required"
  else if zipPrefix.length ≠ 3 then Except.error "zip prefix must be 3 digits"
  else
    let limit2 := if limit ≤ 0 ∨ limit > 100 then 10 else limit
    let offset2 := if offset < 0 then 0 else offset
    Except.ok (find zipPrefix limit2 offset2)

/-- Model of `Service.Upsert`. On success it returns the new store state and
the record as mutated in place by the Go code (prefix derived, id set). -/
def upsert (st : RoadStore) (road : PostalCodeRoad) :
    Except GoErr (RoadStore × PostalCodeRoad) :=
  match validate road with
  | some e => Except.error e
  | none =>
    let r := derivePrefix road
    if r.id > 0 then Except.ok (storeUpdate st r, r)
    else
      match (findByZipCode st r.zipCode).find? (fun x => natKeyMatch x r) with
      | some m =>
        let r2 := { r with id := m.id }
        Except.ok (storeUpdate st r2, r2)
      | none => Except.ok (storeCreate st r)

/-- Validation-and-derivation loop of `Service.BatchUpsert`: the surviving
valid records in order, each with its prefix derived when absent. -/
def collectValid : List PostalCodeRoad → List PostalCodeRoad
  | [] => []
  | r :: rest =>
    if (validate r).isSome then collectValid rest
    else derivePrefix r :: collectValid rest

/-- Model of `Service.BatchUpsert`: skip invalid records, fail only when no
valid record survives, else send the whole surviving set to the store's
batch create in one call. -/
def batchUpsert (st : RoadStore) (roads : List PostalCodeRoad) : Except GoErr RoadStore :=
  let valid := collectValid roads
  if valid = [] then Except.error "no valid records in batch"
  else Except.ok (batchCreate st valid)

/-- Land-side validation-and-derivation loop of `Service.BatchUpsertLand`. -/
def collectValidLand : List PostalCodeLand → List PostalCodeLand
  | [] => []
  | r :: rest =>
    if (validateLand r).isSome then collectValidLand rest
    else derivePrefixLand r :: collectValidLand rest

/-- Model of `Service.BatchUpsertLand`. -/
def batchUpsertLand (st : LandStore) (lands : List PostalCodeLand) : Except GoErr LandStore :=
  let valid := collectValidLand lands
  if valid = [] then Except.error "no valid records in batch"
  else Except.ok (batchCreateLand st valid)

/-- Import result (root-package `ImportResult`); the wall-clock `Duration`
string is not modeled. -/
structure ImportResult where
  totalCount : Int
  errorCount : Int
  deriving DecidableEq, Repr

/-- Batch loop of `ImportFromFile`: consecutive `bs`-sized slices of the
parsed records; a failing `BatchUpsert` call adds the whole batch to the
error count and the run continues, a successful one adds it to the success
count. The fuel argument (instantiated with the list length) only makes the
recursion structural; it never runs out. -/
def importBatchGo (bs : Nat) : Nat → RoadStore → List PostalCodeRoad → RoadStore × Nat × Nat
  | _, st, [] => (st, 0, 0)
  | 0, st, _ :: _ => (st, 0, 0)
  | fuel + 1, st, r :: rest =>
    let batch := (r :: rest).take bs
    let remaining := (r :: rest).drop bs
    match batchUpsert st batch with
    | Except.error _ =>
      let out := importBatchGo bs fuel st remaining
      (out.1, out.2.1, out.2.2 + batch.length)
    | Except.ok st1 =>
      let out := importBatchGo bs fuel st1 remaining
      (out.1, out.2.1 + batch.length, out.2.2)

/-- Batch loop of `ImportFromFile`, entered with fuel equal to the record
count: final store state, success count, batch-failure error count. -/
def importBatchLoop (bs : Nat) (st : RoadStore) (roads : List PostalCodeRoad) :
    RoadStore × Nat × Nat :=
  importBatchGo bs roads.length st roads

/-- Land-side batch loop of `ImportLandFromFile`. -/
def importLandBatchGo (bs : Nat) : Nat → LandStore → List PostalCodeLand → LandStore × Nat × Nat
  | _, st, [] => (st, 0, 0)
  | 0, st, _ :: _ => (st, 0, 0)
  | fuel + 1, st, r :: rest =>
    let batch := (r :: rest).take bs
    let remaining := (r :: rest).drop bs
    match batchUpsertLand st batch with
    | Except.error _ =>
      let out := importLandBatchGo bs fuel st remaining
      (out.1, out.2.1, out.2.2 + batch.length)
    | Except.ok st1 =>
      let out := importLandBatchGo bs fuel st1 remaining
      (out.1, out.2.1 + batch.length, out.2.2)

/-- Land-side batch loop entry point. -/
def importLandBatchLoop (bs : Nat) (st : LandStore) (lands : List PostalCodeLand) :
    LandStore × Nat × Nat :=
  importLandBatchGo bs lands.length st lands

/-- Model of `Importer.ImportFromFile` in the Go code's statement order:
default the batch size, truncate the road table, then count data lines
(this is where an unopenable file aborts the run — after the truncate),
then parse the file, run the batch loop and add the structural parse
errors (counted data lines minus parsed records) to the error count.
The returned store is the table state left behind, also on error. -/
def importRoadFromFile (fs : Option GoFile) (batchSize : Int) (st : RoadStore) :
    Except GoErr ImportResult × RoadStore :=
  let bs : Nat := if batchSize ≤ 0 then 1000 else batchSize.toNat
  let st1 := truncateRoad st
  match fs with
  | none => (Except.error "failed to count lines", st1)
  | some f =>
    let totalLines := countDataLines f
    match parseRoadFile f with
    | Except.error e => (Except.error ("file parsing failed: " ++ e), st1)
    | Except.ok roads =>
      let out := importBatchLoop bs st1 roads
      (Except.ok { totalCount := (out.2.1 : Int),
                   errorCount := (out.2.2 : Int) + ((totalLines : Int) - (roads.length : Int)) },
       out.1)

/-- Model of `Importer.ImportLandFromFile`. -/
def importLandFromFile (fs : Option GoFile) (batchSize : Int) (st : LandStore) :
    Except GoErr ImportResult × LandStore :=
  let bs : Nat := if batchSize ≤ 0 then 1000 else batchSize.toNat
  let st1 := truncateLand st
  match fs with
  | none => (Except.error "failed to count lines", st1)
  | some f =>
    let totalLines := countDataLines f
    match parseLandFile f with
    | Except.error e => (Except.error ("file parsing failed: " ++ e), st1)
    | Except.ok lands =>
      let out := importLandBatchLoop bs st1 lands
      (Except.ok { totalCount := (out.2.1 : Int),
                   errorCount := (out.2.2 : Int) + ((totalLines : Int) - (lands.length : Int)) },
       out.1)

/-- Consecutive `n`-sized chunks of a list (structural via a fuel argument
that is always sufficient at `chunksOf`'s call). -/
def chunksGo (n : Nat) : Nat → List PostalCodeRoad → List (List PostalCodeRoad)
  | _, [] => []
  | 0, _ :: _ => []
  | fuel + 1, r :: rest => (r :: rest).take n :: chunksGo n fuel ((r :: rest).drop n)

/-- Consecutive `n`-sized chunks of a record list. -/
def chunksOf (n : Nat) (l : List PostalCodeRoad) : List (List PostalCodeRoad) :=
  chunksGo n l.length l

/-- Whether a batch contains at least one valid record — in the in-memory
model this is exactly the condition under which its `BatchUpsert` call
succeeds. -/
def hasValidRecord (c : List PostalCodeRoad) : Bool :=
  c.any (fun r => (validate r).isNone)

/-- Data-model invariant of §3 for a persisted road row. -/
def roadInv (r : PostalCodeRoad) : Prop :=
  r.zipCode.length = 5 ∧ (r.zipPrefix ≠ [] → r.zipPrefix = r.zipCode.take 3) ∧
    r.sidoName ≠ [] ∧ r.roadName ≠ []

instance (r : PostalCodeRoad) : Decidable (roadInv r) := by
  unfold roadInv; infer_instance

/-- Input restriction under which the write paths establish `roadInv`: the
zip code carries no surrounding whitespace and a caller-supplied prefix,
when present, already equals the first 3 bytes of the zip code. -/
def goodRoadInput (r : PostalCodeRoad) : Prop :=
  trimSpace r.zipCode = r.zipCode ∧
    (r.zipPrefix = [] ∨ r.zipPrefix = r.zipCode.take 3)

instance (r : PostalCodeRoad) : Decidable (goodRoadInput r) := by
  unfold goodRoadInput; infer_instance

instance instDecEqExceptKP {ε α : Type} [DecidableEq ε] [DecidableEq α] :
    DecidableEq (Except ε α)
  | Except.ok a, Except.ok b =>
    if h : a = b then isTrue (by rw [h]) else isFalse (by simp [h])
  | Except.ok _, Except.error _ => isFalse (by simp)
  | Except.error _, Except.ok _ => isFalse (by simp)
  | Except.error e, Except.error f =>
    if h : e = f then isTrue (by rw [h]) else isFalse (by simp [h])

/-! Concrete sample inputs used by witnesses and counterexamples. -/

/-- A valid road record, as a fresh caller would build one (no id, no prefix). -/
def roadA : PostalCodeRoad :=
  { zipCode := gs "01000", sidoName := gs "Seoul", roadName := gs "Samyang-ro" }

/-- The same record with a caller-supplied zip prefix that does not match the
first 3 bytes of its zip code. -/
def roadBadPrefix : PostalCodeRoad := { roadA with zipPrefix := gs "999" }

/-- An invalid record: the road name is missing. -/
def roadInvalid : PostalCodeRoad := { zipCode := gs "01001", sidoName := gs "Seoul" }

/-- A fresh road table. -/
def emptyRoadStore : RoadStore := {}

/-- A fresh land table. -/
def emptyLandStore : LandStore := {}

/-- A road table holding one row that matches `roadA`'s natural key under id 7. -/
def seededStore : RoadStore :=
  { rows := [{ roadA with id := 7, zipPrefix := gs "010" }], nextId := 8 }

/-- A file holding exactly one (header) line: zero counted data lines. -/
def fileHeaderOnly : GoFile := { lines := [[gs "zipcode"]] }

/-- A full 15-column road data row exercising trimming, the underground flag
and the sub-number sentinel. -/
def roadRowFull : Row :=
  [gs " 01000 ", gs " Seoul ", gs "SeoulEn", gs "Gangbuk", gs "", gs "", gs "",
   gs " Samyang-ro ", gs "", gs " 1 ", gs " 0 ", gs " 0 ", gs "126", gs " 7 ", gs "3"]

/-- A road data row with too few columns. -/
def roadRowShort : Row := [gs "01000", gs "Seoul"]

/-- A full 14-column land data row. -/
def landRowFull : Row :=
  [gs "25627", gs "Gangwon", gs "", gs "Gangneung", gs "", gs "Gangdong", gs "",
   gs "Mojeon", gs "1", gs "Haengjeong", gs "2", gs "3", gs "878", gs "0"]

/-- A land data row with too few columns. -/
def landRowShort : Row := [gs "25627"]

/-- A 15-column road row builder for the import-accounting witness: the road
name column decides validity. -/
def mkImportRow (zipCode roadName : String) : Row :=
  [gs zipCode, gs "Seoul", gs "", gs "Gangbuk", gs "", gs "", gs "", gs roadName,
   gs "", gs "0", gs "1", gs "0", gs "", gs "", gs "3"]

/-- Import witness file: a header, two valid rows, two rows that parse but
fail validation (empty road name) and one structurally short row. -/
def importFile8 : GoFile :=
  { lines := [[gs "header"],
      mkImportRow "01000" "RoadA", mkImportRow "01001" "RoadB",
      mkImportRow "01002" "", mkImportRow "01003" "",
      [gs "01004", gs "short"]] }

/-- A stub store query for the `GetByZipPrefix` witness. -/
def findStub : GoStr → Int → Int → List PostalCodeRoad × Int := fun _ _ _ => ([], 5)

/-- What `Upsert` stores for `roadA` on an empty table: prefix derived, id 1. -/
def roadA1 : PostalCodeRoad := { roadA with zipPrefix := gs "010", id := 1 }

/-- The table state after upserting `roadA` into an empty table. -/
def stA : RoadStore := { rows := [roadA1], nextId := 2 }

/-! ## Helper lemmas -/

lemma derivePrefix_id (r : PostalCodeRoad) : (derivePrefix r).id = r.id := by
  unfold derivePrefix; split <;> rfl

lemma derivePrefix_zipCode (r : PostalCodeRoad) :
    (derivePrefix r).zipCode = r.zipCode := by
  unfold derivePrefix; split <;> rfl

lemma validate_none_iff (r : PostalCodeRoad) :
    validate r = none ↔ r.zipCode.length = 5 ∧ r.sidoName ≠ [] ∧ r.roadName ≠ [] := by
  unfold validate
  split_ifs with h1 h2 h3 h4 <;> simp_all

lemma collectValid_eq (roads : List PostalCodeRoad) :
    collectValid roads =
      (roads.filter (fun r => (validate r).isNone)).map derivePrefix := by
  induction roads with
  | nil => rfl
  | cons r rest ih =>
    cases hv : validate r with
    | none => simp [collectValid, hv, List.filter_cons, ih]
    | some e => simp [collectValid, hv, List.filter_cons, ih]

lemma roadInv_setId (r : PostalCodeRoad) (k : Nat) :
    roadInv { r with id := k } ↔ roadInv r := by
  simp [roadInv]

lemma roadInv_derivePrefix (r : PostalCodeRoad) (hv : validate r = none)
    (hg : goodRoadInput r) : roadInv (derivePrefix r) := by
  obtain ⟨h5, hs, hr⟩ := (validate_none_iff r).1 hv
  obtain ⟨ht, hp⟩ := hg
  unfold derivePrefix
  by_cases hz : r.zipPrefix = []
  · rw [if_pos hz]
    refine ⟨h5, fun _ => ?_, hs, hr⟩
    show extractZipPrefix r.zipCode = r.zipCode.take 3
    unfold extractZipPrefix
    rw [ht, if_pos (by omega)]
  · rw [if_neg hz]
    refine ⟨h5, fun _ => ?_, hs, hr⟩
    rcases hp with hp | hp
    · exact absurd hp hz
    · exact hp

lemma mem_storeUpdate_rows {st : RoadStore} {r x : PostalCodeRoad}
    (hx : x ∈ (storeUpdate st r).rows) : x = r ∨ x ∈ st.rows := by
  simp only [storeUpdate, List.mem_map] at hx
  obtain ⟨y, hy, hxy⟩ := hx
  by_cases h : y.id = r.id
  · left; rw [← hxy, if_pos h]
  · right; rw [← hxy, if_neg h]; exact hy

lemma mem_storeCreate_rows {st : RoadStore} {r x : PostalCodeRoad}
    (hx : x ∈ ((storeCreate st r).1).rows) :
    x ∈ st.rows ∨ x = { r with id := st.nextId } := by
  simpa [storeCreate] using hx

lemma mem_batchCreateOne_rows {st : RoadStore} {r x : PostalCodeRoad}
    (hx : x ∈ (batchCreateOne st r).rows) :
    (∃ k, x = { r with id := k }) ∨ x ∈ st.rows := by
  unfold batchCreateOne at hx
  by_cases hc : st.rows.any (fun y => conflictKeyMatch y r)
  · rw [if_pos hc] at hx
    simp only [List.mem_map] at hx
    obtain ⟨y, hy, hxy⟩ := hx
    by_cases h : conflictKeyMatch y r
    · left; exact ⟨y.id, by rw [← hxy, if_pos h]⟩
    · right; rw [← hxy, if_neg h]; exact hy
  · rw [if_neg hc] at hx
    rcases mem_storeCreate_rows hx with h1 | h1
    · right; exact h1
    · left; exact ⟨st.nextId, h1⟩

lemma batchCreate_preserves_inv :
    ∀ (rs : List PostalCodeRoad) (st : RoadStore),
      (∀ x ∈ st.rows, roadInv x) → (∀ r ∈ rs, roadInv r) →
      ∀ x ∈ (batchCreate st rs).rows, roadInv x := by
  intro rs
  induction rs with
  | nil => intro st hst _ x hx; exact hst x hx
  | cons r rest ih =>
    intro st hst hrs x hx
    have h1 : ∀ y ∈ (batchCreateOne st r).rows, roadInv y := by
      intro y hy
      rcases mem_batchCreateOne_rows hy with ⟨k, rfl⟩ | hy2
      · exact (roadInv_setId r k).2 (hrs r (by simp))
      · exact hst y hy2
    exact ih (batchCreateOne st r) h1 (fun r2 h2 => hrs r2 (by simp [h2])) x hx

lemma mem_collectValid {roads : List PostalCodeRoad} {x : PostalCodeRoad}
    (hx : x ∈ collectValid roads) :
    ∃ r ∈ roads, validate r = none ∧ x = derivePrefix r := by
  induction roads with
  | nil => simp [collectValid] at hx
  | cons r rest ih =>
    cases hv : validate r with
    | some e =>
      simp only [collectValid, hv, Option.isSome_some, if_true] at hx
      obtain ⟨r2, h2, h3, h4⟩ := ih hx
      exact ⟨r2, by simp [h2], h3, h4⟩
    | none =>
      simp only [collectValid, hv, Option.isSome_none, Bool.false_eq_true,
        if_false] at hx
      rcases List.mem_cons.1 hx with rfl | hx2
      · exact ⟨r, by simp, hv, rfl⟩
      · obtain ⟨r2, h2, h3, h4⟩ := ih hx2
        exact ⟨r2, by simp [h2], h3, h4⟩

lemma atoi_nil : atoi ([] : GoStr) = none := rfl

lemma parseSubField_unset (s : GoStr)
    (h : trimSpace s = [] ∨ trimSpace s = ['0']) : parseSubField s = none := by
  simp only [parseSubField]
  rcases h with h | h <;> simp [h]

lemma parseSubField_set (s : GoStr) (v : Int) (h1 : trimSpace s ≠ [])
    (h2 : trimSpace s ≠ ['0']) (h3 : atoi (trimSpace s) = some v) :
    parseSubField s = some v := by
  simp only [parseSubField]
  rw [if_pos ⟨h1, h2⟩]
  exact h3

lemma parseMainInt_of_atoi (s : GoStr) (v : Int)
    (h : atoi (trimSpace s) = some v) : parseMainInt s = v := by
  have hne : trimSpace s ≠ [] := by
    intro h0
    rw [h0, atoi_nil] at h
    exact Option.noConfusion h
  simp only [parseMainInt]
  rw [if_pos hne, h]
  rfl

lemma collectValid_eq_nil_iff (c : List PostalCodeRoad) :
    collectValid c = [] ↔ hasValidRecord c = false := by
  rw [collectValid_eq]
  simp [hasValidRecord, List.filter_eq_nil_iff, List.any_eq_true]

lemma batchUpsert_of_hasValid (st : RoadStore) (c : List PostalCodeRoad)
    (h : hasValidRecord c = true) :
    batchUpsert st c = Except.ok (batchCreate st (collectValid c)) := by
  unfold batchUpsert
  rw [if_neg]
  intro h0
  rw [(collectValid_eq_nil_iff c).1 h0] at h
  exact Bool.noConfusion h

lemma batchUpsert_of_not_hasValid (st : RoadStore) (c : List PostalCodeRoad)
    (h : hasValidRecord c = false) :
    batchUpsert st c = Except.error "no valid records in batch" := by
  unfold batchUpsert
  rw [if_pos ((collectValid_eq_nil_iff c).2 h)]

lemma chunksGo_fuel (n : Nat) (hn : 1 ≤ n) :
    ∀ (fuel1 fuel2 : Nat) (l : List PostalCodeRoad),
      l.length ≤ fuel1 → l.length ≤ fuel2 →
      chunksGo n fuel1 l = chunksGo n fuel2 l := by
  intro fuel1
  induction fuel1 with
  | zero =>
    intro fuel2 l h1 _
    have hl : l = [] := by
      cases l with
      | nil => rfl
      | cons a as => simp at h1
    subst hl
    cases fuel2 <;> rfl
  | succ k ih =>
    intro fuel2 l h1 h2
    cases l with
    | nil => cases fuel2 <;> rfl
    | cons x xs =>
      cases fuel2 with
      | zero => simp at h2
      | succ k2 =>
        have hd1 : ((x :: xs).drop n).length ≤ k := by
          simp only [List.length_drop, List.length_cons] at *
          omega
        have hd2 : ((x :: xs).drop n).length ≤ k2 := by
          simp only [List.length_drop, List.length_cons] at *
          omega
        show (x :: xs).take n :: chunksGo n k ((x :: xs).drop n) =
          (x :: xs).take n :: chunksGo n k2 ((x :: xs).drop n)
        rw [ih k2 _ hd1 hd2]

lemma chunksOf_cons (n : Nat) (hn : 1 ≤ n) (x : PostalCodeRoad)
    (xs : List PostalCodeRoad) :
    chunksOf n (x :: xs) =
      (x :: xs).take n :: chunksOf n ((x :: xs).drop n) := by
  have hd : ((x :: xs).drop n).length ≤ xs.length := by
    simp only [List.length_drop, List.length_cons]
    omega
  show (x :: xs).take n :: chunksGo n xs.length ((x :: xs).drop n) =
    (x :: xs).take n :: chunksGo n ((x :: xs).drop n).length ((x :: xs).drop n)
  rw [chunksGo_fuel n hn xs.length _ _ hd le_rfl]

lemma importBatchGo_cons_ok (bs k : Nat) (st st1 : RoadStore)
    (r : PostalCodeRoad) (rest : List PostalCodeRoad)
    (h : batchUpsert st ((r :: rest).take bs) = Except.ok st1) :
    importBatchGo bs (k + 1) st (r :: rest) =
      ((importBatchGo bs k st1 ((r :: rest).drop bs)).1,
       (importBatchGo bs k st1 ((r :: rest).drop bs)).2.1 +
         ((r :: rest).take bs).length,
       (importBatchGo bs k st1 ((r :: rest).drop bs)).2.2) := by
  simp only [importBatchGo, h]

lemma importBatchGo_cons_err (bs k : Nat) (st : RoadStore) (e : GoErr)
    (r : PostalCodeRoad) (rest : List PostalCodeRoad)
    (h : batchUpsert st ((r :: rest).take bs) = Except.error e) :
    importBatchGo bs (k + 1) st (r :: rest) =
      ((importBatchGo bs k st ((r :: rest).drop bs)).1,
       (importBatchGo bs k st ((r :: rest).drop bs)).2.1,
       (importBatchGo bs k st ((r :: rest).drop bs)).2.2 +
         ((r :: rest).take bs).length) := by
  simp only [importBatchGo, h]

lemma importBatchGo_counts (bs : Nat) (hbs : 1 ≤ bs) :
    ∀ (fuel : Nat) (st : RoadStore) (roads : List PostalCodeRoad),
      roads.length ≤ fuel →
      (importBatchGo bs fuel st roads).2.1 =
        (((chunksOf bs roads).filter hasValidRecord).map List.length).sum ∧
      (importBatchGo bs fuel st roads).2.2 =
        (((chunksOf bs roads).filter (fun c => ! hasValidRecord c)).map
          List.length).sum := by
  intro fuel
  induction fuel with
  | zero =>
    intro st roads h
    have hl : roads = [] := by
      cases roads with
      | nil => rfl
      | cons a l => simp at h
    subst hl
    exact ⟨rfl, rfl⟩
  | succ k ih =>
    intro st roads h
    cases roads with
    | nil => exact ⟨rfl, rfl⟩
    | cons r rest =>
      have hlen : ((r :: rest).drop bs).length ≤ k := by
        simp only [List.length_drop, List.length_cons] at *
        omega
      rw [chunksOf_cons bs hbs r rest]
      cases hvb : hasValidRecord ((r :: rest).take bs) with
      | true =>
        have hb := batchUpsert_of_hasValid st ((r :: rest).take bs) hvb
        have ihh := ih (batchCreate st (collectValid ((r :: rest).take bs)))
          ((r :: rest).drop bs) hlen
        rw [importBatchGo_cons_ok bs k st _ r rest hb]
        constructor
        · simp only [List.filter_cons, hvb, if_true, List.map_cons, List.sum_cons]
          rw [ihh.1]
          omega
        · simp only [List.filter_cons, hvb, Bool.not_true, Bool.false_eq_true,
            if_false]
          exact ihh.2
      | false =>
        have hb := batchUpsert_of_not_hasValid st ((r :: rest).take bs) hvb
        have ihh := ih st ((r :: rest).drop bs) hlen
        rw [importBatchGo_cons_err bs k st _ r rest hb]
        constructor
        · simp only [List.filter_cons, hvb, Bool.false_eq_true, if_false]
          exact ihh.1
        · simp only [List.filter_cons, hvb, Bool.not_false, if_true,
            List.map_cons, List.sum_cons]
          rw [ihh.2]
          omega

/-! ## Claim theorems -/

/-- C5. `ExtractZipPrefix` trims surrounding whitespace and returns the first
3 characters when the trimmed length is at least 3, else the empty string;
in particular on "01000", "12", "  01000  " and "". -/
theorem extractZipPrefix_spec :
    (∀ code : GoStr,
      extractZipPrefix code =
        if (trimSpace code).length ≥ 3 then (trimSpace code).take 3 else []) ∧
    extractZipPrefix (gs "01000") = gs "010" ∧
    extractZipPrefix (gs "12") = gs "" ∧
    extractZipPrefix (gs "  01000  ") = gs "010" ∧
    extractZipPrefix (gs "") = gs "" :=
  ⟨fun _ => rfl, by decide, by decide, by decide, by decide⟩

/-- C1 counterexample. Importing a file that holds exactly one header line
(zero counted data lines) returns a zero-record success — an
`Except.ok` result with zero counts, not an error — on both the road and
land paths, contradicting the claimed empty-file rejection. -/
theorem importFromFile_header_only_success_cex :
    countDataLines fileHeaderOnly = 0 ∧
    (importRoadFromFile (some fileHeaderOnly) 100 emptyRoadStore).1 =
      Except.ok { totalCount := 0, errorCount := 0 } ∧
    (importLandFromFile (some fileHeaderOnly) 100 emptyLandStore).1 =
      Except.ok { totalCount := 0, errorCount := 0 } := by decide

/-- C1 (amended). On a file with zero counted data lines, `ImportFromFile`
(and the land analogue) returns an error only when the file has no lines at
all, because reading the header fails; a file consisting of exactly a
header line produces a successful result with zero records and zero errors
— there is no empty-file rejection. -/
theorem importFromFile_zero_data_lines (f : GoFile) (batchSize : Int)
    (st : RoadStore) (stL : LandStore) (h0 : countDataLines f = 0) :
    (importRoadFromFile (some f) batchSize st).1 =
      (if f.lines = [] then
        Except.error "file parsing failed: failed to read header"
      else Except.ok { totalCount := 0, errorCount := 0 }) ∧
    (importLandFromFile (some f) batchSize stL).1 =
      (if f.lines = [] then
        Except.error "file parsing failed: failed to read header"
      else Except.ok { totalCount := 0, errorCount := 0 }) := by
  cases hf : f.lines with
  | nil =>
    constructor <;>
      simp [importRoadFromFile, importLandFromFile, parseRoadFile, parseLandFile, hf]
  | cons h t =>
    have ht : t = [] := by
      unfold countDataLines at h0
      rw [hf] at h0
      simpa using h0
    subst ht
    constructor <;>
      simp [importRoadFromFile, importLandFromFile, parseRoadFile, parseLandFile,
        hf, countDataLines, parseRoadRows, parseLandRows, importBatchLoop,
        importLandBatchLoop, importBatchGo, importLandBatchGo]

/-- C1 witness. The single-header file evaluated through the amended claim. -/
theorem importFromFile_zero_data_lines_witness :
    countDataLines fileHeaderOnly = 0 ∧
    ((importRoadFromFile (some fileHeaderOnly) 7 emptyRoadStore).1 =
      (if fileHeaderOnly.lines = [] then
        Except.error "file parsing failed: failed to read header"
      else Except.ok { totalCount := 0, errorCount := 0 }) ∧
     (importLandFromFile (some fileHeaderOnly) 7 emptyLandStore).1 =
      (if fileHeaderOnly.lines = [] then
        Except.error "file parsing failed: failed to read header"
      else Except.ok { totalCount := 0, errorCount := 0 })) :=
  ⟨by decide, importFromFile_zero_data_lines fileHeaderOnly 7 emptyRoadStore
    emptyLandStore (by decide)⟩

/-- C2 (amended). `ImportFromFile` on an unopenable file returns an error and
no result, but only after the target table has already been truncated: the
table is left empty with its id sequence reset, not unchanged. Likewise for
the land analogue. -/
theorem importFromFile_unopenable_file_state :
    ∀ (batchSize : Int) (st : RoadStore) (stL : LandStore),
      importRoadFromFile none batchSize st =
        (Except.error "failed to count lines", truncateRoad st) ∧
      importLandFromFile none batchSize stL =
        (Except.error "failed to count lines", truncateLand stL) :=
  fun _ _ _ => ⟨rfl, rfl⟩

/-- C2 counterexample. Importing from an unopenable file over a non-empty
table returns an error, yet the table does not keep its contents: it has
been truncated, against the claim's "the table has not been truncated". -/
theorem importFromFile_unopenable_truncates_cex :
    (importRoadFromFile none 100 seededStore).1.isOk = false ∧
    (importRoadFromFile none 100 seededStore).2.rows = [] ∧
    seededStore.rows ≠ [] := by decide

/-- C6. `GetByZipPrefix` rejects an empty or non-3-character prefix without
consulting the store (the result does not depend on the injected store
query), and otherwise delegates to the store with the limit replaced by 10
whenever it is ≤ 0 or > 100 (values in [1,100] pass through) and the offset
replaced by 0 whenever it is negative. -/
theorem getByZipPrefix_validates_and_clamps :
    ∀ (find : GoStr → Int → Int → List PostalCodeRoad × Int)
      (zipPrefix : GoStr) (limit offset : Int),
      (zipPrefix = [] ∨ zipPrefix.length ≠ 3 →
        (getByZipPrefix find zipPrefix limit offset).isOk = false ∧
        getByZipPrefix find zipPrefix limit offset =
          getByZipPrefix findStub zipPrefix limit offset) ∧
      (zipPrefix.length = 3 →
        getByZipPrefix find zipPrefix limit offset =
          Except.ok (find zipPrefix (if limit ≤ 0 ∨ limit > 100 then 10 else limit)
            (if offset < 0 then 0 else offset))) ∧
      (zipPrefix.length = 3 → 1 ≤ limit → limit ≤ 100 → 0 ≤ offset →
        getByZipPrefix find zipPrefix limit offset =
          Except.ok (find zipPrefix limit offset)) := by
  intro find zp l o
  refine ⟨?_, ?_, ?_⟩
  · intro h
    have h3 : zp.length ≠ 3 := by
      rcases h with h | h
      · simp [h]
      · exact h
    by_cases hz : zp = []
    · simp [getByZipPrefix, hz, Except.isOk, Except.toBool]
    · simp [getByZipPrefix, hz, h3, Except.isOk, Except.toBool]
  · intro h3
    have hz : zp ≠ [] := by
      intro h
      rw [h] at h3
      simp at h3
    simp [getByZipPrefix, hz, h3]
  · intro h3 hl1 hl2 ho
    have hz : zp ≠ [] := by
      intro h
      rw [h] at h3
      simp at h3
    simp only [getByZipPrefix, if_neg hz, if_neg (by omega : ¬ zp.length ≠ 3)]
    rw [if_neg (by omega : ¬ (l ≤ 0 ∨ l > 100)), if_neg (by omega : ¬ o < 0)]

/-- C6 witness. A 2-character prefix is rejected whatever the store returns;
a 3-character prefix with limit 0 and offset -5 reaches the store with
limit 10 and offset 0. -/
theorem getByZipPrefix_validates_and_clamps_witness :
    ((gs "12" = [] ∨ (gs "12").length ≠ 3) ∧
      (getByZipPrefix findStub (gs "12") 10 0).isOk = false) ∧
    ((gs "010").length = 3 ∧
      getByZipPrefix findStub (gs "010") 0 (-5) =
        Except.ok (findStub (gs "010") 10 0)) := by
  refine ⟨⟨Or.inr (by decide), ?_⟩, ⟨by decide, ?_⟩⟩
  · exact ((getByZipPrefix_validates_and_clamps findStub (gs "12") 10 0).1
      (Or.inr (by decide))).1
  · exact (getByZipPrefix_validates_and_clamps findStub (gs "010") 0 (-5)).2.1 (by decide)

/-- C7. `BatchUpsert` validates each record independently: the surviving set
is exactly the valid records with their zip prefixes derived when absent;
the call fails exactly when that set is empty; and otherwise the whole
surviving set is sent to the store's batch create in a single call. -/
theorem batchUpsert_filtering_spec :
    ∀ (st : RoadStore) (roads : List PostalCodeRoad),
      collectValid roads =
        (roads.filter (fun r => (validate r).isNone)).map derivePrefix ∧
      (batchUpsert st roads = Except.error "no valid records in batch" ↔
        roads.filter (fun r => (validate r).isNone) = []) ∧
      (roads.filter (fun r => (validate r).isNone) ≠ [] →
        batchUpsert st roads = Except.ok (batchCreate st (collectValid roads))) := by
  intro st roads
  refine ⟨collectValid_eq roads, ?_, ?_⟩
  · unfold batchUpsert
    rw [collectValid_eq]
    by_cases h : roads.filter (fun r => (validate r).isNone) = []
    · simp [h]
    · simp [h]
  · intro h
    unfold batchUpsert
    rw [collectValid_eq, if_neg (by simp [h]), ← collectValid_eq]

/-- C7 witness. A batch of one invalid and one valid record is not an error:
it goes to the store's batch create with just the valid record, prefix
derived. -/
theorem batchUpsert_filtering_spec_witness :
    [roadInvalid, roadA].filter (fun r => (validate r).isNone) ≠ [] ∧
    batchUpsert emptyRoadStore [roadInvalid, roadA] =
      Except.ok (batchCreate emptyRoadStore (collectValid [roadInvalid, roadA])) :=
  ⟨by decide, (batchUpsert_filtering_spec emptyRoadStore [roadInvalid, roadA]).2.2 (by decide)⟩

/-- C8. For an import over a readable file: records are persisted in
consecutive batches of batchSize (1000 when the caller supplies ≤ 0); a
batch whose persistence call fails contributes all of its records to the
error count while a successful batch contributes all of its records to the
success count; and the returned error count is the structural parse errors
(counted data lines minus parsed records) plus the batch failures. -/
theorem importFromFile_batch_accounting (st : RoadStore) (batchSize : Int)
    (f : GoFile) (hne : f.lines ≠ []) :
    (importRoadFromFile (some f) batchSize st).1 =
      Except.ok
        { totalCount :=
            (((((chunksOf (if batchSize ≤ 0 then 1000 else batchSize.toNat)
                  (parseRoadRows f.lines.tail).1).filter hasValidRecord).map
                List.length).sum : Nat) : Int)
          errorCount :=
            (((((chunksOf (if batchSize ≤ 0 then 1000 else batchSize.toNat)
                  (parseRoadRows f.lines.tail).1).filter
                  (fun c => ! hasValidRecord c)).map List.length).sum : Nat) :
                Int) +
              ((countDataLines f : Int) -
                ((parseRoadRows f.lines.tail).1.length : Int)) } := by
  obtain ⟨h, t, hf⟩ : ∃ h t, f.lines = h :: t := by
    cases hl : f.lines with
    | nil => exact absurd hl hne
    | cons a l => exact ⟨a, l, rfl⟩
  have hbs : 1 ≤ (if batchSize ≤ 0 then 1000 else batchSize.toNat) := by
    split <;> omega
  have hcounts := importBatchGo_counts _ hbs ((parseRoadRows t).1.length)
    (truncateRoad st) (parseRoadRows t).1 le_rfl
  simp only [importRoadFromFile, parseRoadFile, hf, importBatchLoop,
    List.tail_cons]
  rw [hcounts.1, hcounts.2]

/-- C8 witness. Importing the five-data-row file with batch size 2: the
parsed records are two valid then two invalid; the first batch persists
(success 2), the second fails wholesale (errors 2), and the short row adds
one structural parse error. -/
theorem importFromFile_batch_accounting_witness :
    importFile8.lines ≠ [] ∧
    (importRoadFromFile (some importFile8) 2 emptyRoadStore).1 =
      Except.ok
        { totalCount :=
            (((((chunksOf (if (2 : Int) ≤ 0 then 1000 else (2 : Int).toNat)
                  (parseRoadRows importFile8.lines.tail).1).filter
                  hasValidRecord).map List.length).sum : Nat) : Int)
          errorCount :=
            (((((chunksOf (if (2 : Int) ≤ 0 then 1000 else (2 : Int).toNat)
                  (parseRoadRows importFile8.lines.tail).1).filter
                  (fun c => ! hasValidRecord c)).map List.length).sum : Nat) :
                Int) +
              ((countDataLines importFile8 : Int) -
                ((parseRoadRows importFile8.lines.tail).1.length : Int)) } ∧
    (importRoadFromFile (some importFile8) 2 emptyRoadStore).1 =
      Except.ok { totalCount := 2, errorCount := 3 } :=
  ⟨by decide,
   importFromFile_batch_accounting emptyRoadStore 2 importFile8 (by decide),
   by decide⟩

/-- C9. Per-row parsing: string fields are trimmed; a sub-number column
whose trimmed value is empty or the literal "0" leaves the field unset
while any other integer value sets it; main-number columns parse as plain
integers including zero; the underground/mountain flag is true exactly when
the trimmed column is the literal "1"; and a row with fewer than 15 (road)
/ 14 (land) columns yields a structural error and no record, without
aborting the remaining rows. -/
theorem parser_field_semantics :
    (∀ r : Row, r.length < 15 → parseRoadLine r = none) ∧
    (∀ r : Row, 15 ≤ r.length → ∃ rec, parseRoadLine r = some rec ∧
      rec.zipCode = trimSpace (r.getD 0 []) ∧
      rec.sidoName = trimSpace (r.getD 1 []) ∧
      rec.sigunguName = trimSpace (r.getD 3 []) ∧
      rec.roadName = trimSpace (r.getD 7 []) ∧
      (rec.isUnderground = true ↔ trimSpace (r.getD 9 []) = ['1']) ∧
      (trimSpace (r.getD 11 []) = [] ∨ trimSpace (r.getD 11 []) = ['0'] →
        rec.startBuildingSub = none) ∧
      (∀ v : Int, trimSpace (r.getD 11 []) ≠ [] → trimSpace (r.getD 11 []) ≠ ['0'] →
        atoi (trimSpace (r.getD 11 [])) = some v → rec.startBuildingSub = some v) ∧
      (∀ v : Int, atoi (trimSpace (r.getD 10 [])) = some v →
        rec.startBuildingMain = v)) ∧
    (∀ r : Row, r.length < 14 → parseLandLine r = none) ∧
    (∀ r : Row, 14 ≤ r.length → ∃ rec, parseLandLine r = some rec ∧
      rec.zipCode = trimSpace (r.getD 0 []) ∧
      rec.eupmyeondongName = trimSpace (r.getD 5 []) ∧
      rec.riName = trimSpace (r.getD 7 []) ∧
      (rec.isMountain = true ↔ trimSpace (r.getD 8 []) = ['1']) ∧
      (trimSpace (r.getD 11 []) = [] ∨ trimSpace (r.getD 11 []) = ['0'] →
        rec.startJibunSub = none) ∧
      (∀ v : Int, trimSpace (r.getD 11 []) ≠ [] → trimSpace (r.getD 11 []) ≠ ['0'] →
        atoi (trimSpace (r.getD 11 [])) = some v → rec.startJibunSub = some v) ∧
      (∀ v : Int, atoi (trimSpace (r.getD 10 [])) = some v →
        rec.startJibunMain = v)) ∧
    (∀ (bad : Row) (rest : List Row), bad.length < 15 →
      (parseRoadRows (bad :: rest)).1 = (parseRoadRows rest).1 ∧
      (parseRoadRows (bad :: rest)).2 = (parseRoadRows rest).2 + 1) ∧
    (∀ (bad : Row) (rest : List Row), bad.length < 14 →
      (parseLandRows (bad :: rest)).1 = (parseLandRows rest).1 ∧
      (parseLandRows (bad :: rest)).2 = (parseLandRows rest).2 + 1) := by
  have hroadShort : ∀ r : Row, r.length < 15 → parseRoadLine r = none := by
    intro r h
    simp only [parseRoadLine]
    rw [if_pos h]
  have hlandShort : ∀ r : Row, r.length < 14 → parseLandLine r = none := by
    intro r h
    simp only [parseLandLine]
    rw [if_pos h]
  refine ⟨hroadShort, ?_, hlandShort, ?_, ?_, ?_⟩
  · intro r h
    simp only [parseRoadLine]
    rw [if_neg (by omega)]
    refine ⟨_, rfl, rfl, rfl, rfl, rfl, by simp, ?_, ?_, ?_⟩
    · intro h0
      exact parseSubField_unset _ h0
    · intro v h1 h2 h3
      exact parseSubField_set _ v h1 h2 h3
    · intro v hv
      exact parseMainInt_of_atoi _ v hv
  · intro r h
    simp only [parseLandLine]
    rw [if_neg (by omega)]
    refine ⟨_, rfl, rfl, rfl, rfl, by simp, ?_, ?_, ?_⟩
    · intro h0
      exact parseSubField_unset _ h0
    · intro v h1 h2 h3
      exact parseSubField_set _ v h1 h2 h3
    · intro v hv
      exact parseMainInt_of_atoi _ v hv
  · intro bad rest h
    simp [parseRoadRows, hroadShort bad h]
  · intro bad rest h
    simp [parseLandRows, hlandShort bad h]

/-- C9 witness. A full 15-column road row parses (trimmed fields,
underground flag from " 1 ", sub-number " 0 " left unset, end-sub " 7 "
set); a 2-column row is a structural error, also in the middle of a file;
similarly on the land side. -/
theorem parser_field_semantics_witness :
    roadRowShort.length < 15 ∧ parseRoadLine roadRowShort = none ∧
    landRowShort.length < 14 ∧ parseLandLine landRowShort = none ∧
    roadRowFull.length ≥ 15 ∧
    (∃ rec, parseRoadLine roadRowFull = some rec ∧
      rec.zipCode = trimSpace (roadRowFull.getD 0 []) ∧
      rec.sidoName = trimSpace (roadRowFull.getD 1 []) ∧
      rec.sigunguName = trimSpace (roadRowFull.getD 3 []) ∧
      rec.roadName = trimSpace (roadRowFull.getD 7 []) ∧
      (rec.isUnderground = true ↔ trimSpace (roadRowFull.getD 9 []) = ['1']) ∧
      (trimSpace (roadRowFull.getD 11 []) = [] ∨
          trimSpace (roadRowFull.getD 11 []) = ['0'] →
        rec.startBuildingSub = none) ∧
      (∀ v : Int, trimSpace (roadRowFull.getD 11 []) ≠ [] →
        trimSpace (roadRowFull.getD 11 []) ≠ ['0'] →
        atoi (trimSpace (roadRowFull.getD 11 [])) = some v →
        rec.startBuildingSub = some v) ∧
      (∀ v : Int, atoi (trimSpace (roadRowFull.getD 10 [])) = some v →
        rec.startBuildingMain = v)) ∧
    (parseRoadRows [roadRowShort, roadRowFull]).1 =
      (parseRoadRows [roadRowFull]).1 ∧
    (parseRoadRows [roadRowShort, roadRowFull]).2 =
      (parseRoadRows [roadRowFull]).2 + 1 :=
  ⟨by decide, parser_field_semantics.1 roadRowShort (by decide),
   by decide, parser_field_semantics.2.2.1 landRowShort (by decide),
   by decide, parser_field_semantics.2.1 roadRowFull (by decide),
   (parser_field_semantics.2.2.2.2.1 roadRowShort [roadRowFull] (by decide)).1,
   (parser_field_semantics.2.2.2.2.1 roadRowShort [roadRowFull] (by decide)).2⟩

/-- C10. Zip-code validation checks only the byte length, never the digit
content: `GetByZipCode` accepts a string exactly when it is 5 bytes long,
and a record with any 5-byte zip code (non-numeric included) and the other
required fields present passes `validate`. -/
theorem zip_validation_length_only :
    ∀ (s : GoStr) (st : RoadStore) (r : PostalCodeRoad),
      ((getByZipCode st s).isOk = true ↔ s.length = 5) ∧
      (r.zipCode = s → r.sidoName ≠ [] → r.roadName ≠ [] →
        (validate r = none ↔ s.length = 5)) := by
  intro s st r
  constructor
  · by_cases hz : s = []
    · subst hz; simp [getByZipCode, Except.isOk, Except.toBool]
    · by_cases h5 : s.length = 5
      · simp [getByZipCode, hz, h5, Except.isOk, Except.toBool]
      · simp [getByZipCode, hz, h5, Except.isOk, Except.toBool]
  · intro hzc hs hr
    subst hzc
    rw [validate_none_iff]
    simp [hs, hr]

/-- C3 counterexample. `Upsert` with a caller-supplied non-empty ZipPrefix
("999") that differs from the first 3 characters of the ZipCode ("01000")
succeeds and persists the mismatched prefix as-is: the stored row violates
the claimed invariant zipPrefix = first 3 characters of zipCode. -/
theorem upsert_mismatched_zipPrefix_cex :
    (upsert emptyRoadStore roadBadPrefix).toOption.map
        (fun p => p.1.rows.map (fun x =>
          (x.zipPrefix, decide (x.zipPrefix = x.zipCode.take 3)))) =
      some [(gs "999", false)] := by decide

/-- C3 (amended). For records whose zip code carries no surrounding
whitespace and whose supplied ZipPrefix is empty or already equals the
first 3 bytes of the ZipCode, the write paths (`Upsert`, `BatchUpsert`)
preserve the data-model invariant on every stored row: zipCode exactly 5
bytes, zipPrefix (when set) the first 3 bytes of zipCode, roadName and
sidoName non-empty. A mismatched non-empty supplied ZipPrefix is persisted
unchanged (see the counterexample). -/
theorem write_paths_preserve_road_invariant (st : RoadStore)
    (hst : ∀ x ∈ st.rows, roadInv x) :
    (∀ road st2 rec, goodRoadInput road →
      upsert st road = Except.ok (st2, rec) → ∀ x ∈ st2.rows, roadInv x) ∧
    (∀ roads st2, (∀ r ∈ roads, goodRoadInput r) →
      batchUpsert st roads = Except.ok st2 → ∀ x ∈ st2.rows, roadInv x) := by
  constructor
  · intro road st2 rec hg hok x hx
    unfold upsert at hok
    cases hv : validate road with
    | some e => rw [hv] at hok; simp at hok
    | none =>
      rw [hv] at hok
      have hinv : roadInv (derivePrefix road) := roadInv_derivePrefix road hv hg
      by_cases hid : (derivePrefix road).id > 0
      · rw [if_pos hid] at hok
        simp only [Except.ok.injEq, Prod.mk.injEq] at hok
        rw [← hok.1] at hx
        rcases mem_storeUpdate_rows hx with rfl | hx2
        · exact hinv
        · exact hst x hx2
      · rw [if_neg hid] at hok
        cases hm : (findByZipCode st (derivePrefix road).zipCode).find?
            (fun y => natKeyMatch y (derivePrefix road)) with
        | some m =>
          rw [hm] at hok
          simp only [Except.ok.injEq, Prod.mk.injEq] at hok
          rw [← hok.1] at hx
          rcases mem_storeUpdate_rows hx with rfl | hx2
          · exact (roadInv_setId _ _).2 hinv
          · exact hst x hx2
        | none =>
          rw [hm] at hok
          simp only [Except.ok.injEq] at hok
          have h1 : (storeCreate st (derivePrefix road)).1 = st2 := by rw [hok]
          rw [← h1] at hx
          rcases mem_storeCreate_rows hx with hx2 | rfl
          · exact hst x hx2
          · exact (roadInv_setId _ _).2 hinv
  · intro roads st2 hg hok x hx
    unfold batchUpsert at hok
    by_cases hvn : collectValid roads = []
    · rw [if_pos hvn] at hok; simp at hok
    · rw [if_neg hvn] at hok
      simp only [Except.ok.injEq] at hok
      rw [← hok] at hx
      refine batchCreate_preserves_inv (collectValid roads) st hst ?_ x hx
      intro r2 h2
      obtain ⟨r0, h0, hval, rfl⟩ := mem_collectValid h2
      exact roadInv_derivePrefix r0 hval (hg r0 h0)

/-- C3 witness. Upserting the well-formed `roadA` (empty supplied prefix)
into an empty table yields a table whose single row satisfies the
invariant. -/
theorem write_paths_preserve_road_invariant_witness :
    (∀ x ∈ emptyRoadStore.rows, roadInv x) ∧ goodRoadInput roadA ∧
    upsert emptyRoadStore roadA = Except.ok (stA, roadA1) ∧
    (∀ x ∈ stA.rows, roadInv x) :=
  ⟨by decide, by decide, by decide,
    (write_paths_preserve_road_invariant emptyRoadStore (by decide)).1
      roadA stA roadA1 (by decide) (by decide)⟩

/-- C4. `Upsert` on a valid record: a record already carrying an id is
updated directly; a fresh record (id 0) gets its prefix derived, the rows
sharing its zip code are fetched and linearly scanned for an exact
natural-key match, and the record adopts the matching row's id and is
updated, or is created when no row matches. -/
theorem upsert_natural_key_resolution (st : RoadStore) (road : PostalCodeRoad)
    (hv : validate road = none) :
    (0 < road.id →
      upsert st road =
        Except.ok (storeUpdate st (derivePrefix road), derivePrefix road)) ∧
    (road.id = 0 →
      (∀ m, (findByZipCode st (derivePrefix road).zipCode).find?
          (fun x => natKeyMatch x (derivePrefix road)) = some m →
        upsert st road =
          Except.ok (storeUpdate st { derivePrefix road with id := m.id },
            { derivePrefix road with id := m.id })) ∧
      ((findByZipCode st (derivePrefix road).zipCode).find?
          (fun x => natKeyMatch x (derivePrefix road)) = none →
        upsert st road = Except.ok (storeCreate st (derivePrefix road)))) := by
  unfold upsert
  rw [hv]
  constructor
  · intro hid
    rw [if_pos (by rw [derivePrefix_id]; omega)]
  · intro hid
    have hneg : ¬ (derivePrefix road).id > 0 := by rw [derivePrefix_id, hid]; omega
    constructor
    · intro m hm
      rw [if_neg hneg, hm]
    · intro hm
      rw [if_neg hneg, hm]

/-- C4 witness. Upserting the fresh record `roadA` over a table that holds a
natural-key match under id 7 adopts that id and updates that row. -/
theorem upsert_natural_key_resolution_witness :
    validate roadA = none ∧ roadA.id = 0 ∧
    (findByZipCode seededStore (derivePrefix roadA).zipCode).find?
        (fun x => natKeyMatch x (derivePrefix roadA)) =
      some { roadA with id := 7, zipPrefix := gs "010" } ∧
    upsert seededStore roadA =
      Except.ok
        (storeUpdate seededStore
          { derivePrefix roadA with id := ({ roadA with id := 7, zipPrefix := gs "010" } : PostalCodeRoad).id },
         { derivePrefix roadA with id := ({ roadA with id := 7, zipPrefix := gs "010" } : PostalCodeRoad).id }) :=
  ⟨by decide, by decide, by decide,
    ((upsert_natural_key_resolution seededStore roadA (by decide)).2 (by decide)).1
      { roadA with id := 7, zipPrefix := gs "010" } (by decide)⟩

/-- C10 witness. The non-numeric 5-byte string "abcde" is accepted by
`GetByZipCode` and passes record validation. -/
theorem zip_validation_length_only_witness :
    (getByZipCode emptyRoadStore (gs "abcde")).isOk = true ∧
    validate { zipCode := gs "abcde", sidoName := gs "a", roadName := gs "b" } = none := by
  constructor
  · exact ((zip_validation_length_only (gs "abcde") emptyRoadStore roadA).1).mpr (by decide)
  · exact ((zip_validation_length_only (gs "abcde") emptyRoadStore
      { zipCode := gs "abcde", sidoName := gs "a", roadName := gs "b" }).2
      rfl (by decide) (by decide)).mpr (by decide)

end KoreanPostal
